import Mathlib

/-!
Shallow embedding of the authoritative server simulation of
the_circles_king (packages/server/src/index.ts).

Numbers are modelled as rationals.  The transcendental library
functions the source calls (Math.hypot, Math.exp, Math.sin) are
parameters of the embedding (structure Env below), and every call to
Math.random is an explicit oracle argument, so that all definitions
stay computable while following the source line by line.
-/

namespace CircleKing

def WORLD_width : ℚ := 1200
def WORLD_height : ℚ := 800
def PLAYER_RADIUS : ℚ := 18
def MAX_SPEED : ℚ := 520
def ACCEL : ℚ := 1400
def DAMPING : ℚ := 3.2
def DASH_SPEED : ℚ := 720
def DASH_COOLDOWN : ℚ := 3
def COLLISION_PUSH : ℚ := 520
def OUTSIDE_SPEED_MULT : ℚ := 0.6
def OUTSIDE_HP_DRAIN : ℚ := 12
def ROUND_DURATION_MS : ℚ := 180000
def SHIFT_INTERVAL_MS : ℚ := 15000
def SHIFT_DURATION_MS : ℚ := 2000
def PULSE_INTERVAL_MS : ℚ := 18000
def PULSE_DURATION_MS : ℚ := 6000
def PULSE_AMPLITUDE : ℚ := 0.12
def PULSE_FREQ : ℚ := 5
def RESIZE_INTERVAL_MS : ℚ := 22000
def ACCEL_INTERVAL_MS : ℚ := 20000

/-- The five input booleans of a PlayerInput message. -/
structure PlayerInput where
  up : Bool
  down : Bool
  left : Bool
  right : Bool
  dash : Bool
  deriving DecidableEq

/-- Per-player simulation state (the `Player` record of the source,
minus the WebSocket handle, which carries no simulation state). -/
structure Player where
  id : String
  nickname : String
  input : PlayerInput
  x : ℚ
  y : ℚ
  vx : ℚ
  vy : ℚ
  lastDir : ℚ × ℚ
  dashCooldown : ℚ
  hp : ℚ
  alive : Bool
  dominationTime : ℚ
  deriving DecidableEq

/-- The in-flight shift sub-state of the safe circle. -/
structure ShiftState where
  active : Bool
  startX : ℚ
  startY : ℚ
  targetX : ℚ
  targetY : ℚ
  duration : ℚ
  elapsed : ℚ
  deriving DecidableEq

/-- The in-flight pulse sub-state of the safe circle. -/
structure PulseState where
  active : Bool
  duration : ℚ
  elapsed : ℚ
  amplitude : ℚ
  deriving DecidableEq

/-- The `CircleState` record of the source. -/
structure CircleState where
  x : ℚ
  y : ℚ
  vx : ℚ
  vy : ℚ
  driftSpeed : ℚ
  driftAccel : ℚ
  driftTimer : ℚ
  baseRadius : ℚ
  minRadius : ℚ
  maxRadius : ℚ
  shrinkRate : ℚ
  innerFactor : ℚ
  shift : ShiftState
  pulse : PulseState
  deriving DecidableEq

/-- The derived `SafeCircleSnapshot` of the protocol. -/
structure SafeCircleSnapshot where
  x : ℚ
  y : ℚ
  radius : ℚ
  innerRadius : ℚ
  deriving DecidableEq

/-- The `Room` record of the source.  The `players` Map iterates in
insertion order, so it is embedded as a list in that order (ids are
unique per room). -/
structure Room where
  code : String
  players : List Player
  tick : Nat
  elapsedMs : ℚ
  nextShiftMs : ℚ
  nextPulseMs : ℚ
  nextResizeMs : ℚ
  nextAccelMs : ℚ
  circle : CircleState
  roundEnded : Bool
  deriving DecidableEq

/-- The transcendental library functions the source calls, kept
abstract: `hyp` stands for Math.hypot, `exp` for Math.exp, `sin` for
Math.sin. -/
structure Env where
  hyp : ℚ → ℚ → ℚ
  exp : ℚ → ℚ
  sin : ℚ → ℚ

/-- Oracle for the Math.random draws made by updateCircle when the
drift countdown expires: cosA/sinA are cos/sin of the random angle,
timerU is the uniform draw for the new countdown. -/
structure DriftRnd where
  cosA : ℚ
  sinA : ℚ
  timerU : ℚ

/-- Oracle for all Math.random draws one tick can make. -/
structure TickRnd where
  drift : DriftRnd
  shiftU1 : ℚ
  shiftU2 : ℚ
  resizeU : ℚ

/-- Round end reasons of the roundEnd protocol message. -/
inductive Reason where
  | lastAlive : Reason
  | timeout : Reason
  deriving DecidableEq

/-- The payload of a roundEnd protocol message. -/
structure RoundEndMsg where
  winnerId : Option String
  reason : Reason
  deriving DecidableEq

/-- The payload of a death protocol message. -/
structure DeathMsg where
  playerId : String
  nickname : String
  deriving DecidableEq

/-- Event descriptors (the ActiveEvent union of the protocol). -/
inductive ActiveEvent where
  | shiftE (targetX targetY durationMs : ℚ) : ActiveEvent
  | pulseE (durationMs amplitude : ℚ) : ActiveEvent
  | resizeE (targetRadius : ℚ) : ActiveEvent
  | accelE (speedBoost accelBoost : ℚ) : ActiveEvent
  deriving DecidableEq

/-- The outbound server messages relevant to the simulation core. -/
inductive ServerMsg where
  | welcome (playerId roomCode : String) : ServerMsg
  | eventM (e : ActiveEvent) : ServerMsg
  | death (d : DeathMsg) : ServerMsg
  | roundEndM (m : RoundEndMsg) : ServerMsg
  | error (msg : String) : ServerMsg
  deriving DecidableEq

/-- `normalize` of the source: zero vector when the length is zero. -/
def normalize (env : Env) (x y : ℚ) : ℚ × ℚ :=
  let len := env.hyp x y
  if len = 0 then (0, 0) else (x / len, y / len)

/-- `clampMagnitude` of the source. -/
def clampMagnitude (env : Env) (vx vy bound : ℚ) : ℚ × ℚ :=
  let len := env.hyp vx vy
  if len ≤ bound then (vx, vy) else (vx * (bound / len), vy * (bound / len))

/-- `getCircleSnapshot` of the source: effective radius is the base
radius times the pulse factor. -/
def getCircleSnapshot (env : Env) (c : CircleState) : SafeCircleSnapshot :=
  let pulse := if c.pulse.active then 1 + c.pulse.amplitude * env.sin (c.pulse.elapsed * PULSE_FREQ) else 1
  let radius := c.baseRadius * pulse
  { x := c.x, y := c.y, radius := radius, innerRadius := radius * c.innerFactor }

/-- `isOutside` of the source: strictly beyond the effective radius. -/
def isOutside (env : Env) (p : Player) (snap : SafeCircleSnapshot) : Bool :=
  decide (snap.radius < env.hyp (p.x - snap.x) (p.y - snap.y))

/-- `applyInput` of the source: early return for dead players, then
direction derivation, acceleration, dash impulse, exponential damping,
speed clamp, position integration, and the hard wall clamp. -/
def applyInput (env : Env) (dt speedMultiplier : ℚ) (p : Player) : Player :=
  if p.alive = false then p
  else
    let dirX : ℚ := (if p.input.right then 1 else 0) - (if p.input.left then 1 else 0)
    let dirY : ℚ := (if p.input.down then 1 else 0) - (if p.input.up then 1 else 0)
    let dir := normalize env dirX dirY
    let lastDir := if dir.1 = 0 ∧ dir.2 = 0 then p.lastDir else dir
    let vx1 := p.vx + dir.1 * ACCEL * speedMultiplier * dt
    let vy1 := p.vy + dir.2 * ACCEL * speedMultiplier * dt
    let dashNow : Bool := p.input.dash && decide (p.dashCooldown ≤ 0)
    let vx2 := if dashNow then vx1 + lastDir.1 * DASH_SPEED else vx1
    let vy2 := if dashNow then vy1 + lastDir.2 * DASH_SPEED else vy1
    let cooldown1 := if dashNow then DASH_COOLDOWN else p.dashCooldown
    let damping := env.exp (-(DAMPING * dt))
    let cl := clampMagnitude env (vx2 * damping) (vy2 * damping) MAX_SPEED
    { p with
      lastDir := lastDir
      dashCooldown := cooldown1
      vx := cl.1
      vy := cl.2
      x := max PLAYER_RADIUS (min (WORLD_width - PLAYER_RADIUS) (p.x + cl.1 * dt))
      y := max PLAYER_RADIUS (min (WORLD_height - PLAYER_RADIUS) (p.y + cl.2 * dt)) }

/-- One pair step of `resolveCollisions`: positional separation by half
the overlap each plus the fixed COLLISION_PUSH velocity impulse; the
degenerate coincident case and non-overlapping pairs are skipped. -/
def collide (env : Env) (a b : Player) : Player × Player :=
  let dx := b.x - a.x
  let dy := b.y - a.y
  let dist := env.hyp dx dy
  let minDist := PLAYER_RADIUS * 2
  if dist = 0 ∨ minDist ≤ dist then (a, b)
  else
    let overlap := minDist - dist
    let nx := dx / dist
    let ny := dy / dist
    ({ a with
        x := a.x - nx * overlap * 0.5
        y := a.y - ny * overlap * 0.5
        vx := a.vx - nx * COLLISION_PUSH
        vy := a.vy - ny * COLLISION_PUSH },
     { b with
        x := b.x + nx * overlap * 0.5
        y := b.y + ny * overlap * 0.5
        vx := b.vx + nx * COLLISION_PUSH
        vy := b.vy + ny * COLLISION_PUSH })

/-- The inner loop of `resolveCollisions`: resolves player `a`
(players[i]) against each later player in order, carrying `a`'s
accumulated updates forward exactly as the in-place mutation does;
dead later players are skipped unchanged. -/
def resolveWith (env : Env) (a : Player) : List Player → Player × List Player
  | [] => (a, [])
  | b :: rest =>
    if b.alive = false then
      let r := resolveWith env a rest
      (r.1, b :: r.2)
    else
      let ab := collide env a b
      let r := resolveWith env ab.1 rest
      (r.1, ab.2 :: r.2)

/-- The outer loop of `resolveCollisions`, structurally recursive on a
fuel argument that `resolveCollisions` initializes to the list length
(resolveWith preserves length, so the fuel never runs out). -/
def resolveGo (env : Env) : Nat → List Player → List Player
  | _, [] => []
  | 0, ps => ps
  | Nat.succ n, a :: rest =>
    if a.alive = false then a :: resolveGo env n rest
    else
      let r := resolveWith env a rest
      r.1 :: resolveGo env n r.2

/-- `resolveCollisions` of the source: one O(n²) pass in index order
over the room's player list, updates visible to later pairs. -/
def resolveCollisions (env : Env) (ps : List Player) : List Player :=
  resolveGo env ps.length ps

/-- `updateCircle` of the source: drift with random direction changes,
bounce off the arena margins, monotone shrink floored at minRadius,
shift interpolation overriding the center, pulse timer bookkeeping. -/
def updateCircle (rnd : DriftRnd) (dt : ℚ) (c : CircleState) : CircleState :=
  let timer0 := c.driftTimer - dt
  let expired : Bool := decide (timer0 ≤ 0)
  let vx0 := if expired then rnd.cosA else c.vx
  let vy0 := if expired then rnd.sinA else c.vy
  let timer1 := if expired then 2 + rnd.timerU * 2 else timer0
  let driftSpeed1 := c.driftSpeed + c.driftAccel * dt
  let x0 := c.x + vx0 * driftSpeed1 * dt
  let y0 := c.y + vy0 * driftSpeed1 * dt
  let margin := c.baseRadius + 20
  let bounceX : Bool := decide (x0 < margin) || decide (WORLD_width - margin < x0)
  let vx1 := if bounceX then -vx0 else vx0
  let x1 := if bounceX then max margin (min (WORLD_width - margin) x0) else x0
  let bounceY : Bool := decide (y0 < margin) || decide (WORLD_height - margin < y0)
  let vy1 := if bounceY then -vy0 else vy0
  let y1 := if bounceY then max margin (min (WORLD_height - margin) y0) else y0
  let baseRadius1 := max c.minRadius (c.baseRadius - c.shrinkRate * dt)
  let sh0 := if c.shift.active then { c.shift with elapsed := c.shift.elapsed + dt } else c.shift
  let t := min 1 (sh0.elapsed / sh0.duration)
  let x2 := if c.shift.active then sh0.startX + (sh0.targetX - sh0.startX) * t else x1
  let y2 := if c.shift.active then sh0.startY + (sh0.targetY - sh0.startY) * t else y1
  let sh1 := if c.shift.active ∧ 1 ≤ t then { sh0 with active := false } else sh0
  let pu1 :=
    if c.pulse.active then
      let e := c.pulse.elapsed + dt
      if c.pulse.duration ≤ e then { c.pulse with active := false, elapsed := 0 }
      else { c.pulse with elapsed := e }
    else c.pulse
  { c with
    x := x2, y := y2, vx := vx1, vy := vy1
    driftSpeed := driftSpeed1, driftTimer := timer1
    baseRadius := baseRadius1, shift := sh1, pulse := pu1 }

/-- `triggerShift` of the source: random target kept at least
max(140, 0.6·baseRadius) away from every arena edge; u1 and u2 are the
Math.random draws. -/
def triggerShift (u1 u2 : ℚ) (c : CircleState) : CircleState × ActiveEvent :=
  let margin := max 140 (c.baseRadius * 0.6)
  let targetX := margin + u1 * (WORLD_width - margin * 2)
  let targetY := margin + u2 * (WORLD_height - margin * 2)
  ({ c with shift :=
      { active := true, startX := c.x, startY := c.y
        targetX := targetX, targetY := targetY
        duration := SHIFT_DURATION_MS / 1000, elapsed := 0 } },
   ActiveEvent.shiftE targetX targetY SHIFT_DURATION_MS)

/-- `triggerResize` of the source: sets baseRadius instantly to
minRadius + u·(maxRadius − minRadius), with u the Math.random draw. -/
def triggerResize (u : ℚ) (c : CircleState) : CircleState × ActiveEvent :=
  let targetRadius := c.minRadius + u * (c.maxRadius - c.minRadius)
  ({ c with baseRadius := targetRadius }, ActiveEvent.resizeE targetRadius)

/-- `triggerAccel` of the source: permanent fixed increments to drift
speed and drift acceleration. -/
def triggerAccel (c : CircleState) : CircleState × ActiveEvent :=
  ({ c with driftSpeed := c.driftSpeed + 10, driftAccel := c.driftAccel + 0.6 },
   ActiveEvent.accelE 10 0.6)

/-- `triggerPulse` of the source: restarts the pulse sub-state. -/
def triggerPulse (c : CircleState) : CircleState × ActiveEvent :=
  ({ c with pulse :=
      { active := true, duration := PULSE_DURATION_MS / 1000
        elapsed := 0, amplitude := PULSE_AMPLITUDE } },
   ActiveEvent.pulseE PULSE_DURATION_MS PULSE_AMPLITUDE)

/-- The per-player body of the movement loop of `updateRoom`: decay
the dash cooldown (for every player, before the aliveness check inside
applyInput), test outside against the given snapshot, and integrate
with the reduced speed multiplier when outside. -/
def moveStep (env : Env) (dt : ℚ) (snap : SafeCircleSnapshot) (p : Player) : Player :=
  let p1 := { p with dashCooldown := max 0 (p.dashCooldown - dt) }
  let speedMultiplier := if isOutside env p1 snap then OUTSIDE_SPEED_MULT else 1
  applyInput env dt speedMultiplier p1

/-- The movement loop of `updateRoom`, using the snapshot of the
room's circle computed before the loop. -/
def movePhase (env : Env) (dt : ℚ) (r : Room) : Room :=
  { r with players := r.players.map (moveStep env dt (getCircleSnapshot env r.circle)) }

/-- The collision step of `updateRoom`. -/
def collidePhase (env : Env) (r : Room) : Room :=
  { r with players := resolveCollisions env r.players }

/-- The per-player body of the damage/domination loop of `updateRoom`:
dead players are skipped; outside players lose hp (floored at 0); a
player whose hp reaches 0 dies with zeroed velocity and a death
broadcast, skipping the domination check; players within the inner
radius accumulate domination time. -/
def damageStep (env : Env) (dt : ℚ) (snap : SafeCircleSnapshot) (p : Player) :
    Player × Option DeathMsg :=
  if p.alive = false then (p, none)
  else
    let hp1 := if isOutside env p snap then max 0 (p.hp - OUTSIDE_HP_DRAIN * dt) else p.hp
    if hp1 ≤ 0 then
      ({ p with hp := hp1, alive := false, vx := 0, vy := 0 },
       some { playerId := p.id, nickname := p.nickname })
    else
      let dist := env.hyp (p.x - snap.x) (p.y - snap.y)
      if dist ≤ snap.innerRadius then
        ({ p with hp := hp1, dominationTime := p.dominationTime + dt }, none)
      else ({ p with hp := hp1 }, none)

/-- The damage/domination loop of `updateRoom`, over the snapshot
recomputed from the room's circle after movement and collisions. -/
def damagePhase (env : Env) (dt : ℚ) (r : Room) : Room × List DeathMsg :=
  let snap := getCircleSnapshot env r.circle
  let results := r.players.map (damageStep env dt snap)
  ({ r with players := results.map Prod.fst }, results.filterMap Prod.snd)

/-- The event scheduling block of `updateRoom`: the four deadlines are
tested against elapsed time in the fixed order shift, pulse, resize,
accel; a due deadline is bumped by its interval and the corresponding
trigger fires. -/
def eventsPhase (rnd : TickRnd) (r : Room) : Room × List ActiveEvent :=
  let s1 :=
    if r.nextShiftMs ≤ r.elapsedMs then
      let tr := triggerShift rnd.shiftU1 rnd.shiftU2 r.circle
      ({ r with nextShiftMs := r.nextShiftMs + SHIFT_INTERVAL_MS, circle := tr.1 }, [tr.2])
    else (r, [])
  let s2 :=
    if s1.1.nextPulseMs ≤ s1.1.elapsedMs then
      let tr := triggerPulse s1.1.circle
      ({ s1.1 with nextPulseMs := s1.1.nextPulseMs + PULSE_INTERVAL_MS, circle := tr.1 },
       s1.2 ++ [tr.2])
    else s1
  let s3 :=
    if s2.1.nextResizeMs ≤ s2.1.elapsedMs then
      let tr := triggerResize rnd.resizeU s2.1.circle
      ({ s2.1 with nextResizeMs := s2.1.nextResizeMs + RESIZE_INTERVAL_MS, circle := tr.1 },
       s2.2 ++ [tr.2])
    else s2
  if s3.1.nextAccelMs ≤ s3.1.elapsedMs then
    let tr := triggerAccel s3.1.circle
    ({ s3.1 with nextAccelMs := s3.1.nextAccelMs + ACCEL_INTERVAL_MS, circle := tr.1 },
     s3.2 ++ [tr.2])
  else s3

/-- The winner fold of the timeout branch of `checkRoundEnd`: winnerId
starts null, bestDomination starts −1, strict improvement wins. -/
def bestPair : List Player → Option String → ℚ → Option String × ℚ
  | [], w, b => (w, b)
  | p :: ps, w, b =>
    if b < p.dominationTime then bestPair ps (some p.id) p.dominationTime
    else bestPair ps w b

/-- `checkRoundEnd` of the source: no-op when already ended or when the
room has fewer than two players; lastAlive when at most one player is
alive; timeout when the elapsed time reached the round duration. -/
def checkRoundEnd (r : Room) : Room × Option RoundEndMsg :=
  if r.roundEnded then (r, none)
  else if r.players.length < 2 then (r, none)
  else
    let alivePlayers := r.players.filter (fun p => p.alive)
    if alivePlayers.length ≤ 1 then
      ({ r with roundEnded := true },
       some { winnerId := alivePlayers.head?.map Player.id, reason := Reason.lastAlive })
    else if ROUND_DURATION_MS ≤ r.elapsedMs then
      ({ r with roundEnded := true },
       some { winnerId := (bestPair r.players none (-1)).1, reason := Reason.timeout })
    else (r, none)

/-- `updateRoom` of the source: an ended room only advances its tick;
an active room advances elapsed time and tick, updates the circle,
moves players, resolves collisions, applies damage/domination against
the recomputed snapshot, fires due events, then evaluates round end.
The returned list collects the broadcast messages in firing order. -/
def updateRoom (env : Env) (rnd : TickRnd) (dt : ℚ) (r : Room) : Room × List ServerMsg :=
  if r.roundEnded then ({ r with tick := r.tick + 1 }, [])
  else
    let r1 := { r with
      elapsedMs := r.elapsedMs + dt * 1000
      tick := r.tick + 1
      circle := updateCircle rnd.drift dt r.circle }
    let r2 := movePhase env dt r1
    let r3 := collidePhase env r2
    let dres := damagePhase env dt r3
    let eres := eventsPhase rnd dres.1
    let cres := checkRoundEnd eres.1
    (cres.1,
      dres.2.map ServerMsg.death ++ eres.2.map ServerMsg.eventM ++
        (match cres.2 with
         | some m => [ServerMsg.roundEndM m]
         | none => []))

/-- The initial circle literal used by both `createRoom` and
`resetRoomRound` in the source. -/
def initialCircle : CircleState :=
  { x := WORLD_width * 0.5, y := WORLD_height * 0.5
    vx := 1, vy := 0
    driftSpeed := 8, driftAccel := 1.2, driftTimer := 2
    baseRadius := 320, minRadius := 140, maxRadius := 420
    shrinkRate := 0.7, innerFactor := 0.6
    shift :=
      { active := false
        startX := WORLD_width * 0.5, startY := WORLD_height * 0.5
        targetX := WORLD_width * 0.5, targetY := WORLD_height * 0.5
        duration := SHIFT_DURATION_MS / 1000, elapsed := 0 }
    pulse :=
      { active := false, duration := PULSE_DURATION_MS / 1000
        elapsed := 0, amplitude := PULSE_AMPLITUDE } }

/-- `createRoom` of the source. -/
def createRoom (code : String) : Room :=
  { code := code, players := [], tick := 0, elapsedMs := 0
    nextShiftMs := SHIFT_INTERVAL_MS, nextPulseMs := PULSE_INTERVAL_MS
    nextResizeMs := RESIZE_INTERVAL_MS, nextAccelMs := ACCEL_INTERVAL_MS
    circle := initialCircle, roundEnded := false }

/-- The per-player body of the reset loop of `resetRoomRound`. -/
def resetPlayer (p : Player) : Player :=
  { p with hp := 100, alive := true, dominationTime := 0, vx := 0, vy := 0 }

/-- `resetRoomRound` of the source: re-initializes elapsed time, the
four deadlines, the round-ended flag and the circle, and resets each
current player's hp/alive/domination/velocity; the tick counter and
everything else are untouched. -/
def resetRoomRound (r : Room) : Room :=
  { r with
    elapsedMs := 0
    nextShiftMs := SHIFT_INTERVAL_MS
    nextPulseMs := PULSE_INTERVAL_MS
    nextResizeMs := RESIZE_INTERVAL_MS
    nextAccelMs := ACCEL_INTERVAL_MS
    roundEnded := false
    circle := initialCircle
    players := r.players.map resetPlayer }

/-- The per-connection closure state of the source's connection
handler (`currentRoom` is a live Room reference in the source; it is
modelled by the room's code, resolved through the registry). -/
structure Session where
  currentRoom : Option String
  playerId : Option String
  deriving DecidableEq

/-- The inbound client messages after successful JSON parsing. -/
inductive ClientMessage where
  | join (roomCode nickname : String) : ClientMessage
  | inputMsg (seq : Nat) (inp : PlayerInput) : ClientMessage
  deriving DecidableEq

/-- The room registry (`rooms` Map of the source), in insertion order. -/
def lookupRoom (rooms : List (String × Room)) (code : String) : Option Room :=
  (rooms.find? (fun kv => decide (kv.1 = code))).map Prod.snd

/-- Map.set on the registry: replace in place or append. -/
def setRoom : List (String × Room) → String → Room → List (String × Room)
  | [], code, r => [(code, r)]
  | kv :: rest, code, r =>
    if kv.1 = code then (code, r) :: rest else kv :: setRoom rest code r

/-- Map.set on a room's player map (keyed by player id). -/
def setPlayer : List Player → Player → List Player
  | [], p => [p]
  | q :: rest, p => if q.id = p.id then p :: rest else q :: setPlayer rest p

/-- In-place overwrite of a player's stored input. -/
def setInput (pid : String) (inp : PlayerInput) : List Player → List Player
  | [] => []
  | p :: rest =>
    if p.id = pid then { p with input := inp } :: rest else p :: setInput pid inp rest

/-- Oracle for the random draws of a join: the generated player id and
the two Math.random draws of the spawn offset. -/
structure JoinRnd where
  idStr : String
  u1 : ℚ
  u2 : ℚ

/-- The join branch of the connection message handler: reject when the
connection already joined, otherwise normalize code and nickname,
fetch-or-create the room, insert the new player, reset the round if it
had ended, and reply with a welcome. -/
def handleJoin (rnd : JoinRnd) (sess : Session) (rooms : List (String × Room))
    (roomCodeRaw nickRaw : String) :
    Session × List (String × Room) × List ServerMsg :=
  if sess.currentRoom.isSome then (sess, rooms, [ServerMsg.error "Already joined."])
  else
    let roomCode := roomCodeRaw.trim.toUpper
    let nickTrim := nickRaw.trim.take 16
    let nickname := if nickTrim = "" then "Player" else nickTrim
    let room0 :=
      match lookupRoom rooms roomCode with
      | some r => r
      | none => createRoom roomCode
    let newPlayer : Player :=
      { id := rnd.idStr, nickname := nickname
        input := { up := false, down := false, left := false, right := false, dash := false }
        x := room0.circle.x + (rnd.u1 - 0.5) * 120
        y := room0.circle.y + (rnd.u2 - 0.5) * 120
        vx := 0, vy := 0, lastDir := (0, -1), dashCooldown := 0
        hp := 100, alive := true, dominationTime := 0 }
    let room1 := { room0 with players := setPlayer room0.players newPlayer }
    let room2 := if room1.roundEnded then resetRoomRound room1 else room1
    ({ currentRoom := some roomCode, playerId := some rnd.idStr },
     setRoom rooms roomCode room2,
     [ServerMsg.welcome rnd.idStr roomCode])

/-- The input branch of the connection message handler: error when the
connection has not joined; silently ignore an unknown or dead player;
otherwise overwrite the stored input (last write wins). -/
def handleInput (sess : Session) (rooms : List (String × Room)) (inp : PlayerInput) :
    Session × List (String × Room) × List ServerMsg :=
  match sess.currentRoom, sess.playerId with
  | some rc, some pid =>
    (match lookupRoom rooms rc with
     | none => (sess, rooms, [])
     | some room =>
       match room.players.find? (fun p => decide (p.id = pid)) with
       | none => (sess, rooms, [])
       | some p =>
         if p.alive = false then (sess, rooms, [])
         else
           (sess, setRoom rooms rc { room with players := setInput pid inp room.players }, []))
  | _, _ => (sess, rooms, [ServerMsg.error "Join a room first."])

/-- The connection message handler over parsed messages. -/
def handleMessage (rnd : JoinRnd) (sess : Session) (rooms : List (String × Room)) :
    ClientMessage → Session × List (String × Room) × List ServerMsg
  | ClientMessage.join rc nick => handleJoin rnd sess rooms rc nick
  | ClientMessage.inputMsg _ inp => handleInput sess rooms inp

/-- Spec-side description of the timeout winner: the first player of
the list attaining the maximum domination time (later elements win
only by strict improvement). -/
def specFirstMax : List Player → Option Player
  | [] => none
  | p :: ps =>
    match specFirstMax ps with
    | none => some p
    | some q => if p.dominationTime < q.dominationTime then some q else some p

/-- Squared Euclidean distance between two player centers. -/
def distSq (a b : Player) : ℚ :=
  (b.x - a.x) ^ 2 + (b.y - a.y) ^ 2

/-- One atomic mutation of the safe circle: a per-tick advance or one
of the four event triggers. -/
inductive CircleOp where
  | advanceOp (rnd : DriftRnd) (dt : ℚ) : CircleOp
  | shiftOp (u1 u2 : ℚ) : CircleOp
  | pulseOp : CircleOp
  | resizeOp (u : ℚ) : CircleOp
  | accelOp : CircleOp

/-- Apply one circle mutation. -/
def applyCircleOp (c : CircleState) : CircleOp → CircleState
  | CircleOp.advanceOp rnd dt => updateCircle rnd dt c
  | CircleOp.shiftOp u1 u2 => (triggerShift u1 u2 c).1
  | CircleOp.pulseOp => (triggerPulse c).1
  | CircleOp.resizeOp u => (triggerResize u c).1
  | CircleOp.accelOp => (triggerAccel c).1

/-- Side conditions the runtime guarantees for each mutation: ticks
have nonnegative dt and Math.random draws lie in [0, 1). -/
def goodOp : CircleOp → Prop
  | CircleOp.advanceOp _ dt => 0 ≤ dt
  | CircleOp.resizeOp u => 0 ≤ u ∧ u < 1
  | _ => True

/-- The radius invariant of the safe circle, together with the
nonnegative shrink rate it relies on (shrinkRate is set once, to 0.7,
and never modified). -/
def radiusInv (c : CircleState) : Prop :=
  c.minRadius ≤ c.baseRadius ∧ c.baseRadius ≤ c.maxRadius ∧ 0 ≤ c.shrinkRate

/-- A concrete stand-in for Math.hypot that is exact on axis-aligned
vectors (one coordinate zero); every hypot call in the concrete
scenarios below is axis-aligned, so on those runs it coincides with
the real Math.hypot. -/
def hypAxis (x y : ℚ) : ℚ :=
  if x = 0 then |y| else if y = 0 then |x| else 0

/-- Concrete environment for the closed scenarios; only its hypot
component is ever consulted by them, and only on axis-aligned
vectors. -/
def envC : Env :=
  { hyp := hypAxis, exp := fun _ => 1, sin := fun _ => 0 }

/-- Scenario fixture: an alive player at a given position with no
velocity, no input, full health. -/
def mkPlayer (pid : String) (px py : ℚ) : Player :=
  { id := pid, nickname := pid
    input := { up := false, down := false, left := false, right := false, dash := false }
    x := px, y := py, vx := 0, vy := 0, lastDir := (0, -1), dashCooldown := 0
    hp := 100, alive := true, dominationTime := 0 }

/-- Scenario fixture: a dead player (the state the damage pass leaves
behind: zero velocity, zero hp). -/
def mkDead (pid : String) (px py : ℚ) : Player :=
  { mkPlayer pid px py with alive := false, vx := 0, vy := 0, hp := 0 }

/-- Scenario fixture: a fresh room holding the given players with the
given elapsed time. -/
def mkRoom (ps : List Player) (elapsed : ℚ) : Room :=
  { code := "ROOM", players := ps, tick := 0, elapsedMs := elapsed
    nextShiftMs := SHIFT_INTERVAL_MS, nextPulseMs := PULSE_INTERVAL_MS
    nextResizeMs := RESIZE_INTERVAL_MS, nextAccelMs := ACCEL_INTERVAL_MS
    circle := initialCircle, roundEnded := false }

/-! ## Theorems -/

/-- C1 counterexample: a solo room whose elapsed time has reached the
round duration is NOT ended by the round-end check — the size guard
returns before the timeout branch, so no transition and no message. -/
theorem soloRoom_timeout_not_ended :
    (mkRoom [mkPlayer "A" 100 100] 180000).players.length < 2 ∧
    ROUND_DURATION_MS ≤ (mkRoom [mkPlayer "A" 100 100] 180000).elapsedMs ∧
    (mkRoom [mkPlayer "A" 100 100] 180000).roundEnded = false ∧
    checkRoundEnd (mkRoom [mkPlayer "A" 100 100] 180000) =
      (mkRoom [mkPlayer "A" 100 100] 180000, none) := by
  refine ⟨by decide, by norm_num [ROUND_DURATION_MS, mkRoom], rfl, rfl⟩

/-- C1 (amended): a room with fewer than two players is never ended by
the round-end check at all — neither via lastAlive nor via timeout —
the check returns it unchanged with no message. -/
theorem checkRoundEnd_small_room_noop (r : Room) (h : r.players.length < 2) :
    checkRoundEnd r = (r, none) := by
  cases hr : r.roundEnded <;> simp [checkRoundEnd, hr, h]

/-- Witness for checkRoundEnd_small_room_noop: a concrete solo room. -/
theorem checkRoundEnd_small_room_noop_witness :
    (mkRoom [mkPlayer "W" 200 300] 5000).players.length < 2 ∧
    checkRoundEnd (mkRoom [mkPlayer "W" 200 300] 5000) =
      (mkRoom [mkPlayer "W" 200 300] 5000, none) :=
  ⟨by decide, checkRoundEnd_small_room_noop (mkRoom [mkPlayer "W" 200 300] 5000) (by decide)⟩

/-- C2 (amended): immediately after the movement-integration step an
alive player's position lies within
[playerRadius, worldWidth − playerRadius] × [playerRadius, worldHeight − playerRadius];
the bound is enforced by the final clamp of applyInput (but can be
violated later in the same tick by collision resolution, see the
counterexample). -/
theorem applyInput_position_clamped (env : Env) (dt sm : ℚ) (p : Player)
    (h : p.alive = true) :
    PLAYER_RADIUS ≤ (applyInput env dt sm p).x ∧
    (applyInput env dt sm p).x ≤ WORLD_width - PLAYER_RADIUS ∧
    PLAYER_RADIUS ≤ (applyInput env dt sm p).y ∧
    (applyInput env dt sm p).y ≤ WORLD_height - PLAYER_RADIUS := by
  simp only [applyInput, h]
  refine ⟨le_max_left _ _,
          max_le (by norm_num [PLAYER_RADIUS, WORLD_width]) (min_le_left _ _),
          le_max_left _ _,
          max_le (by norm_num [PLAYER_RADIUS, WORLD_height]) (min_le_left _ _)⟩

/-- Witness for applyInput_position_clamped at a concrete player. -/
theorem applyInput_position_clamped_witness :
    (mkPlayer "W2" 600 400).alive = true ∧
    (PLAYER_RADIUS ≤ (applyInput envC (1 / 30) 1 (mkPlayer "W2" 600 400)).x ∧
     (applyInput envC (1 / 30) 1 (mkPlayer "W2" 600 400)).x ≤ WORLD_width - PLAYER_RADIUS ∧
     PLAYER_RADIUS ≤ (applyInput envC (1 / 30) 1 (mkPlayer "W2" 600 400)).y ∧
     (applyInput envC (1 / 30) 1 (mkPlayer "W2" 600 400)).y ≤ WORLD_height - PLAYER_RADIUS) :=
  ⟨by decide, applyInput_position_clamped envC (1 / 30) 1 (mkPlayer "W2" 600 400) (by decide)⟩

/-- C2 counterexample: two alive players whose positions already
satisfy the clamp (and are fixed points of the integration step) are
pushed by the collision-resolution pass to a position outside the
clamp: the first player ends at x = 5 < playerRadius. -/
theorem collision_pass_leaves_bounds :
    (PLAYER_RADIUS ≤ (mkPlayer "A" 18 400).x ∧ PLAYER_RADIUS ≤ (mkPlayer "B" 28 400).x) ∧
    applyInput envC (1 / 30) 1 (mkPlayer "A" 18 400) = mkPlayer "A" 18 400 ∧
    applyInput envC (1 / 30) 1 (mkPlayer "B" 28 400) = mkPlayer "B" 28 400 ∧
    resolveCollisions envC [mkPlayer "A" 18 400, mkPlayer "B" 28 400] =
      [{ mkPlayer "A" 18 400 with x := 5, vx := -520 },
       { mkPlayer "B" 28 400 with x := 41, vx := 520 }] ∧
    ({ mkPlayer "A" 18 400 with x := 5, vx := -520 } : Player).x < PLAYER_RADIUS := by
  refine ⟨⟨by decide, by decide⟩, ?_, ?_, ?_, by decide⟩
  · simp [applyInput, mkPlayer, envC, hypAxis, normalize, clampMagnitude,
          PLAYER_RADIUS, WORLD_width, WORLD_height, MAX_SPEED, ACCEL, DAMPING]
    norm_num
  · simp [applyInput, mkPlayer, envC, hypAxis, normalize, clampMagnitude,
          PLAYER_RADIUS, WORLD_width, WORLD_height, MAX_SPEED, ACCEL, DAMPING]
    norm_num
  · simp [resolveCollisions, resolveGo, resolveWith, collide, mkPlayer, envC, hypAxis,
          PLAYER_RADIUS, COLLISION_PUSH]
    norm_num

/-- C7: nothing between the two per-tick circle-snapshot computations
(the movement loop and the collision pass) mutates the circle state or
the pulse phase, so the snapshot recomputed for the damage pass equals
the snapshot used for movement, in all four fields. -/
theorem circle_snapshot_stable_within_tick (env : Env) (dt : ℚ) (r : Room) :
    getCircleSnapshot env ((collidePhase env (movePhase env dt r)).circle) =
      getCircleSnapshot env r.circle ∧
    ((collidePhase env (movePhase env dt r)).circle) = r.circle := by
  exact ⟨rfl, rfl⟩

/-- C10: a round reset re-initializes elapsed time, the four event
deadlines, the round flag and the circle; it maps every player to its
reset image, which sets hp/alive/domination/velocity and preserves
position, lastDir, dash cooldown, stored input, id and nickname; the
tick counter and room code are untouched. -/
theorem resetRoomRound_frame (r : Room) :
    (resetRoomRound r).tick = r.tick ∧
    (resetRoomRound r).code = r.code ∧
    (resetRoomRound r).elapsedMs = 0 ∧
    (resetRoomRound r).nextShiftMs = SHIFT_INTERVAL_MS ∧
    (resetRoomRound r).nextPulseMs = PULSE_INTERVAL_MS ∧
    (resetRoomRound r).nextResizeMs = RESIZE_INTERVAL_MS ∧
    (resetRoomRound r).nextAccelMs = ACCEL_INTERVAL_MS ∧
    (resetRoomRound r).roundEnded = false ∧
    (resetRoomRound r).circle = initialCircle ∧
    (resetRoomRound r).players = r.players.map resetPlayer ∧
    ∀ p : Player,
      (resetPlayer p).hp = 100 ∧ (resetPlayer p).alive = true ∧
      (resetPlayer p).dominationTime = 0 ∧ (resetPlayer p).vx = 0 ∧
      (resetPlayer p).vy = 0 ∧ (resetPlayer p).x = p.x ∧ (resetPlayer p).y = p.y ∧
      (resetPlayer p).lastDir = p.lastDir ∧
      (resetPlayer p).dashCooldown = p.dashCooldown ∧
      (resetPlayer p).input = p.input ∧ (resetPlayer p).id = p.id ∧
      (resetPlayer p).nickname = p.nickname := by
  exact ⟨rfl, rfl, rfl, rfl, rfl, rfl, rfl, rfl, rfl, rfl,
    fun p => ⟨rfl, rfl, rfl, rfl, rfl, rfl, rfl, rfl, rfl, rfl, rfl, rfl⟩⟩

/-- C4: with at least two players and at most one alive, the round-end
check ends the round with reason lastAlive; the winner is the first
(hence sole) alive player, or null when none is alive. -/
theorem checkRoundEnd_lastAlive (r : Room)
    (h0 : r.roundEnded = false) (h1 : 2 ≤ r.players.length)
    (h2 : (r.players.filter (fun p => p.alive)).length ≤ 1) :
    (checkRoundEnd r).1.roundEnded = true ∧
    (checkRoundEnd r).2 =
      some { winnerId := (r.players.filter (fun p => p.alive)).head?.map Player.id
             reason := Reason.lastAlive } ∧
    (r.players.filter (fun p => p.alive) = [] →
      (checkRoundEnd r).2 = some { winnerId := none, reason := Reason.lastAlive }) ∧
    (∀ p : Player, p ∈ r.players → p.alive = true →
      (checkRoundEnd r).2 = some { winnerId := some p.id, reason := Reason.lastAlive }) := by
  have hnl : ¬ (r.players.length < 2) := Nat.not_lt.mpr h1
  have hck : checkRoundEnd r =
      ({ r with roundEnded := true },
       some { winnerId := (r.players.filter (fun p => p.alive)).head?.map Player.id
              reason := Reason.lastAlive }) := by
    simp [checkRoundEnd, h0, hnl, h2]
  refine ⟨by rw [hck], by rw [hck], ?_, ?_⟩
  · intro hnil
    rw [hck, hnil]
    rfl
  · intro p hp hal
    have hmem : p ∈ r.players.filter (fun q => q.alive) :=
      List.mem_filter.mpr ⟨hp, hal⟩
    have hsingle : r.players.filter (fun q => q.alive) = [p] := by
      rcases hfe : r.players.filter (fun q => q.alive) with _ | ⟨q, rest⟩
      · rw [hfe] at hmem
        cases hmem
      · rw [hfe] at hmem h2
        rcases rest with _ | ⟨q2, rest2⟩
        · have hpq : p = q := by simpa using hmem
          rw [hpq]
          exact hfe
        · simp at h2
    rw [hck, hsingle]
    rfl

/-- Witness for checkRoundEnd_lastAlive: two players, one alive. -/
theorem checkRoundEnd_lastAlive_witness :
    (mkRoom [mkPlayer "A" 100 100, mkDead "B" 200 200] 0).roundEnded = false ∧
    2 ≤ (mkRoom [mkPlayer "A" 100 100, mkDead "B" 200 200] 0).players.length ∧
    ((mkRoom [mkPlayer "A" 100 100, mkDead "B" 200 200] 0).players.filter
      (fun p => p.alive)).length ≤ 1 ∧
    (checkRoundEnd (mkRoom [mkPlayer "A" 100 100, mkDead "B" 200 200] 0)).2 =
      some { winnerId := some "A", reason := Reason.lastAlive } := by
  refine ⟨rfl, by decide, by decide, ?_⟩
  exact (checkRoundEnd_lastAlive (mkRoom [mkPlayer "A" 100 100, mkDead "B" 200 200] 0)
      rfl (by decide) (by decide)).2.2.2
    (mkPlayer "A" 100 100) (List.mem_cons_self _ _) rfl

/-- The inner collision loop never touches a dead later player. -/
theorem resolveWith_dead_preserved (env : Env) :
    ∀ (rest : List Player) (a : Player) (k : Nat) (p : Player),
      rest[k]? = some p → p.alive = false →
      ((resolveWith env a rest).2)[k]? = some p := by
  intro rest
  induction rest with
  | nil =>
    intro a k p h _
    simp at h
  | cons b rest ih =>
    intro a k p h hdead
    by_cases hb : b.alive = false
    · rw [resolveWith, if_pos hb]
      cases k with
      | zero =>
        simp only [List.getElem?_cons_zero, Option.some.injEq] at h
        subst h
        simp
      | succ k =>
        simp only [List.getElem?_cons_succ] at h ⊢
        exact ih a k p h hdead
    · rw [resolveWith, if_neg hb]
      cases k with
      | zero =>
        simp only [List.getElem?_cons_zero, Option.some.injEq] at h
        subst h
        exact absurd hdead hb
      | succ k =>
        simp only [List.getElem?_cons_succ] at h ⊢
        exact ih (collide env a b).1 k p h hdead

/-- The collision pass never touches a dead player, for any fuel. -/
theorem resolveGo_dead_preserved (env : Env) :
    ∀ (n : Nat) (ps : List Player) (k : Nat) (p : Player),
      ps[k]? = some p → p.alive = false →
      (resolveGo env n ps)[k]? = some p := by
  intro n
  induction n with
  | zero =>
    intro ps k p h hd
    cases ps with
    | nil => simp at h
    | cons a rest => simpa [resolveGo] using h
  | succ n ih =>
    intro ps k p h hd
    cases ps with
    | nil => simp at h
    | cons a rest =>
      by_cases ha : a.alive = false
      · rw [resolveGo, if_pos ha]
        cases k with
        | zero => simpa using h
        | succ k =>
          simp only [List.getElem?_cons_succ] at h ⊢
          exact ih rest k p h hd
      · rw [resolveGo, if_neg ha]
        cases k with
        | zero =>
          simp only [List.getElem?_cons_zero, Option.some.injEq] at h
          subst h
          exact absurd hd ha
        | succ k =>
          simp only [List.getElem?_cons_succ] at h ⊢
          exact ih (resolveWith env a rest).2 k p
            (resolveWith_dead_preserved env rest a k p h hd) hd

/-- C6: once a player is dead, the per-tick operations leave it alone:
the integration step returns it unchanged, the movement loop changes
nothing but the dash cooldown (position, velocity, hp, aliveness are
untouched), the collision pass returns it unchanged at its index, and
the damage/domination pass returns it unchanged; moreover, whenever the
damage pass kills an alive player the resulting dead player has zero
velocity — so dead players always carry zero velocity. -/
theorem dead_player_untouched :
    (∀ (env : Env) (dt sm : ℚ) (p : Player), p.alive = false →
       applyInput env dt sm p = p) ∧
    (∀ (env : Env) (dt : ℚ) (snap : SafeCircleSnapshot) (p : Player), p.alive = false →
       (moveStep env dt snap p).x = p.x ∧ (moveStep env dt snap p).y = p.y ∧
       (moveStep env dt snap p).vx = p.vx ∧ (moveStep env dt snap p).vy = p.vy ∧
       (moveStep env dt snap p).hp = p.hp ∧ (moveStep env dt snap p).alive = false) ∧
    (∀ (env : Env) (ps : List Player) (k : Nat) (p : Player),
       ps[k]? = some p → p.alive = false →
       (resolveCollisions env ps)[k]? = some p) ∧
    (∀ (env : Env) (dt : ℚ) (snap : SafeCircleSnapshot) (p : Player), p.alive = false →
       damageStep env dt snap p = (p, none)) ∧
    (∀ (env : Env) (dt : ℚ) (snap : SafeCircleSnapshot) (p : Player), p.alive = true →
       (damageStep env dt snap p).1.alive = false →
       (damageStep env dt snap p).1.vx = 0 ∧ (damageStep env dt snap p).1.vy = 0) := by
  refine ⟨?_, ?_, ?_, ?_, ?_⟩
  · intro env dt sm p h
    simp [applyInput, h]
  · intro env dt snap p h
    simp [moveStep, applyInput, h]
  · intro env ps k p h hd
    exact resolveGo_dead_preserved env ps.length ps k p h hd
  · intro env dt snap p h
    simp [damageStep, h]
  · intro env dt snap p h hdeadout
    by_cases hhp :
        (if isOutside env p snap then max 0 (p.hp - OUTSIDE_HP_DRAIN * dt) else p.hp) ≤ 0
    · simp [damageStep, h, hhp]
    · exfalso
      simp only [damageStep, h, Bool.true_eq_false, if_false, if_neg hhp] at hdeadout
      split at hdeadout <;> simp [h] at hdeadout

/-- Witness for dead_player_untouched at a concrete dead player. -/
theorem dead_player_untouched_witness :
    (mkDead "D" 300 300).alive = false ∧
    applyInput envC 1 1 (mkDead "D" 300 300) = mkDead "D" 300 300 ∧
    (resolveCollisions envC [mkDead "D" 300 300])[0]? = some (mkDead "D" 300 300) ∧
    damageStep envC 1 (getCircleSnapshot envC initialCircle) (mkDead "D" 300 300) =
      (mkDead "D" 300 300, none) :=
  ⟨rfl,
   dead_player_untouched.1 envC 1 1 (mkDead "D" 300 300) rfl,
   dead_player_untouched.2.2.1 envC [mkDead "D" 300 300] 0 (mkDead "D" 300 300) rfl rfl,
   dead_player_untouched.2.2.2.1 envC 1 (getCircleSnapshot envC initialCircle)
     (mkDead "D" 300 300) rfl⟩

/-- One circle mutation preserves the radius invariant: the shrink of
an advance never raises baseRadius and floors at minRadius; a resize
with a draw in [0,1) lands inside [minRadius, maxRadius]; shift, pulse
and accel do not touch baseRadius. -/
theorem radiusInv_step (c : CircleState) (op : CircleOp)
    (hc : radiusInv c) (hop : goodOp op) : radiusInv (applyCircleOp c op) := by
  obtain ⟨hmin, hmax, hrate⟩ := hc
  have hmm : c.minRadius ≤ c.maxRadius := le_trans hmin hmax
  cases op with
  | advanceOp rnd dt =>
    refine ⟨?_, ?_, hrate⟩
    · show c.minRadius ≤ max c.minRadius (c.baseRadius - c.shrinkRate * dt)
      exact le_max_left _ _
    · show max c.minRadius (c.baseRadius - c.shrinkRate * dt) ≤ c.maxRadius
      refine max_le hmm (le_trans ?_ hmax)
      exact sub_le_self _ (mul_nonneg hrate hop)
  | shiftOp u1 u2 => exact ⟨hmin, hmax, hrate⟩
  | pulseOp => exact ⟨hmin, hmax, hrate⟩
  | resizeOp u =>
    obtain ⟨hu0, hu1⟩ := hop
    refine ⟨?_, ?_, hrate⟩
    · show c.minRadius ≤ c.minRadius + u * (c.maxRadius - c.minRadius)
      exact le_add_of_nonneg_right (mul_nonneg hu0 (sub_nonneg.mpr hmm))
    · show c.minRadius + u * (c.maxRadius - c.minRadius) ≤ c.maxRadius
      have : u * (c.maxRadius - c.minRadius) ≤ c.maxRadius - c.minRadius :=
        mul_le_of_le_one_left (sub_nonneg.mpr hmm) (le_of_lt hu1)
      linarith
  | accelOp => exact ⟨hmin, hmax, hrate⟩

/-- C8: the initial circle satisfies minRadius ≤ baseRadius ≤ maxRadius,
and any sequence of per-tick advances and event triggers whose random
draws satisfy the runtime's guarantees keeps baseRadius inside
[minRadius, maxRadius] (so it holds at every intermediate state, each
being the fold of a prefix). -/
theorem baseRadius_bounded :
    radiusInv initialCircle ∧
    ∀ (ops : List CircleOp) (c : CircleState), radiusInv c →
      (∀ op ∈ ops, goodOp op) → radiusInv (ops.foldl applyCircleOp c) := by
  constructor
  · refine ⟨?_, ?_, ?_⟩ <;> norm_num [initialCircle, radiusInv]
  · intro ops
    induction ops with
    | nil => intro c hc _; exact hc
    | cons op ops ih =>
      intro c hc hops
      exact ih (applyCircleOp c op)
        (radiusInv_step c op hc (hops op (List.mem_cons_self _ _)))
        (fun o ho => hops o (List.mem_cons_of_mem _ ho))

/-- Witness for baseRadius_bounded: a concrete resize then an advance. -/
theorem baseRadius_bounded_witness :
    radiusInv (List.foldl applyCircleOp initialCircle
      [CircleOp.resizeOp (1 / 2), CircleOp.advanceOp ⟨1, 0, 0⟩ (1 / 30)]) := by
  refine baseRadius_bounded.2
    [CircleOp.resizeOp (1 / 2), CircleOp.advanceOp ⟨1, 0, 0⟩ (1 / 30)]
    initialCircle baseRadius_bounded.1 ?_
  intro op hop
  simp only [List.mem_cons, List.not_mem_nil, or_false] at hop
  rcases hop with rfl | rfl
  · exact ⟨by norm_num, by norm_num⟩
  · norm_num [goodOp]

/-- C9: a join on a connection that already joined, and an input on a
connection that never joined, each produce exactly one error message
and leave the session, the room registry, every room and every player
unchanged. -/
theorem gateway_rejects_bad_messages :
    (∀ (rnd : JoinRnd) (sess : Session) (rooms : List (String × Room)) (rc nick : String),
       sess.currentRoom.isSome = true →
       handleMessage rnd sess rooms (ClientMessage.join rc nick) =
         (sess, rooms, [ServerMsg.error "Already joined."])) ∧
    (∀ (rnd : JoinRnd) (sess : Session) (rooms : List (String × Room))
       (seq : Nat) (inp : PlayerInput),
       sess.currentRoom = none →
       handleMessage rnd sess rooms (ClientMessage.inputMsg seq inp) =
         (sess, rooms, [ServerMsg.error "Join a room first."])) := by
  constructor
  · intro rnd sess rooms rc nick h
    simp [handleMessage, handleJoin, h]
  · intro rnd sess rooms seq inp h
    rcases sess with ⟨cr, pid⟩
    simp only at h
    subst h
    cases pid <;> rfl

/-- Witness for gateway_rejects_bad_messages at concrete sessions. -/
theorem gateway_rejects_bad_messages_witness :
    ((⟨some "R", some "p1"⟩ : Session).currentRoom.isSome = true ∧
     handleMessage ⟨"id9", 0, 0⟩ ⟨some "R", some "p1"⟩ [] (ClientMessage.join "X" "nick") =
       (⟨some "R", some "p1"⟩, [], [ServerMsg.error "Already joined."])) ∧
    ((⟨none, none⟩ : Session).currentRoom = none ∧
     handleMessage ⟨"id9", 0, 0⟩ ⟨none, none⟩ []
         (ClientMessage.inputMsg 3 ⟨true, false, false, false, false⟩) =
       (⟨none, none⟩, [], [ServerMsg.error "Join a room first."])) :=
  ⟨⟨rfl, gateway_rejects_bad_messages.1 ⟨"id9", 0, 0⟩ ⟨some "R", some "p1"⟩ [] "X" "nick" rfl⟩,
   ⟨rfl, gateway_rejects_bad_messages.2 ⟨"id9", 0, 0⟩ ⟨none, none⟩ [] 3
      ⟨true, false, false, false, false⟩ rfl⟩⟩

/-- The pair step leaves the second player's alive flag unchanged. -/
theorem collide_snd_alive (env : Env) (a b : Player) :
    (collide env a b).2.alive = b.alive := by
  unfold collide
  dsimp only
  split
  · rfl
  · rfl

/-- A pass over exactly two alive players is the single pair step. -/
theorem resolveCollisions_pair (env : Env) (a b : Player)
    (ha : a.alive = true) (hb : b.alive = true) :
    resolveCollisions env [a, b] = [(collide env a b).1, (collide env a b).2] := by
  unfold resolveCollisions
  simp [resolveGo, resolveWith, ha, hb, collide_snd_alive]

/-- Separation algebra: pushing both endpoints apart along the normal
by half the overlap each scales the difference vector to length R. -/
theorem sep_algebra (dx dy d R : ℚ) (hne : d ≠ 0) (h : dx ^ 2 + dy ^ 2 = d ^ 2) :
    (dx + dx / d * (R - d)) ^ 2 + (dy + dy / d * (R - d)) ^ 2 = R ^ 2 := by
  field_simp
  linear_combination R ^ 2 * h

/-- C3 (amended): when the pass involves exactly the two overlapping
alive players, the pair step puts them at distance exactly
2·playerRadius, which is at least their pre-resolution distance.  The
hypotheses say that the hypot oracle returns the true Euclidean
distance d of the pair, with 0 < d < 2·playerRadius. -/
theorem collision_pair_separation (env : Env) (a b : Player) (d : ℚ)
    (ha : a.alive = true) (hb : b.alive = true)
    (hd : env.hyp (b.x - a.x) (b.y - a.y) = d)
    (hsq : d ^ 2 = distSq a b)
    (hpos : 0 < d) (hlt : d < PLAYER_RADIUS * 2) :
    ∃ a2 b2, resolveCollisions env [a, b] = [a2, b2] ∧
      distSq a2 b2 = (PLAYER_RADIUS * 2) ^ 2 ∧
      d ^ 2 ≤ (PLAYER_RADIUS * 2) ^ 2 := by
  have hne : d ≠ 0 := ne_of_gt hpos
  have hgd : ¬ (d = 0 ∨ PLAYER_RADIUS * 2 ≤ d) := by
    rintro (h | h)
    · exact hne h
    · exact absurd hlt (not_lt.mpr h)
  have hcol : collide env a b =
      ({ a with x := a.x - (b.x - a.x) / d * (PLAYER_RADIUS * 2 - d) * 0.5
                y := a.y - (b.y - a.y) / d * (PLAYER_RADIUS * 2 - d) * 0.5
                vx := a.vx - (b.x - a.x) / d * COLLISION_PUSH
                vy := a.vy - (b.y - a.y) / d * COLLISION_PUSH },
       { b with x := b.x + (b.x - a.x) / d * (PLAYER_RADIUS * 2 - d) * 0.5
                y := b.y + (b.y - a.y) / d * (PLAYER_RADIUS * 2 - d) * 0.5
                vx := b.vx + (b.x - a.x) / d * COLLISION_PUSH
                vy := b.vy + (b.y - a.y) / d * COLLISION_PUSH }) := by
    unfold collide
    simp only [hd]
    rw [if_neg hgd]
  refine ⟨{ a with x := a.x - (b.x - a.x) / d * (PLAYER_RADIUS * 2 - d) * 0.5
                   y := a.y - (b.y - a.y) / d * (PLAYER_RADIUS * 2 - d) * 0.5
                   vx := a.vx - (b.x - a.x) / d * COLLISION_PUSH
                   vy := a.vy - (b.y - a.y) / d * COLLISION_PUSH },
          { b with x := b.x + (b.x - a.x) / d * (PLAYER_RADIUS * 2 - d) * 0.5
                   y := b.y + (b.y - a.y) / d * (PLAYER_RADIUS * 2 - d) * 0.5
                   vx := b.vx + (b.x - a.x) / d * COLLISION_PUSH
                   vy := b.vy + (b.y - a.y) / d * COLLISION_PUSH }, ?_, ?_, ?_⟩
  · rw [resolveCollisions_pair env a b ha hb, hcol]
  · have hsq2 : (b.x - a.x) ^ 2 + (b.y - a.y) ^ 2 = d ^ 2 := by
      rw [hsq]
      rfl
    show ((b.x + (b.x - a.x) / d * (PLAYER_RADIUS * 2 - d) * 0.5) -
          (a.x - (b.x - a.x) / d * (PLAYER_RADIUS * 2 - d) * 0.5)) ^ 2 +
         ((b.y + (b.y - a.y) / d * (PLAYER_RADIUS * 2 - d) * 0.5) -
          (a.y - (b.y - a.y) / d * (PLAYER_RADIUS * 2 - d) * 0.5)) ^ 2 =
         (PLAYER_RADIUS * 2) ^ 2
    have hx : (b.x + (b.x - a.x) / d * (PLAYER_RADIUS * 2 - d) * 0.5) -
          (a.x - (b.x - a.x) / d * (PLAYER_RADIUS * 2 - d) * 0.5) =
        (b.x - a.x) + (b.x - a.x) / d * (PLAYER_RADIUS * 2 - d) := by ring
    have hy : (b.y + (b.y - a.y) / d * (PLAYER_RADIUS * 2 - d) * 0.5) -
          (a.y - (b.y - a.y) / d * (PLAYER_RADIUS * 2 - d) * 0.5) =
        (b.y - a.y) + (b.y - a.y) / d * (PLAYER_RADIUS * 2 - d) := by ring
    rw [hx, hy]
    exact sep_algebra (b.x - a.x) (b.y - a.y) d (PLAYER_RADIUS * 2) hne hsq2
  · exact pow_le_pow_left₀ (le_of_lt hpos) (le_of_lt hlt) 2

/-- Witness for collision_pair_separation: a concrete collinear pair
at distance 35 (the hypot oracle is exact there). -/
theorem collision_pair_separation_witness :
    envC.hyp ((mkPlayer "WB" 135 200).x - (mkPlayer "WA" 100 200).x)
             ((mkPlayer "WB" 135 200).y - (mkPlayer "WA" 100 200).y) = 35 ∧
    (35 : ℚ) ^ 2 = distSq (mkPlayer "WA" 100 200) (mkPlayer "WB" 135 200) ∧
    (35 : ℚ) < PLAYER_RADIUS * 2 ∧
    ∃ a2 b2,
      resolveCollisions envC [mkPlayer "WA" 100 200, mkPlayer "WB" 135 200] = [a2, b2] ∧
      distSq a2 b2 = (PLAYER_RADIUS * 2) ^ 2 ∧
      (35 : ℚ) ^ 2 ≤ (PLAYER_RADIUS * 2) ^ 2 :=
  ⟨by norm_num [envC, hypAxis, mkPlayer],
   by norm_num [distSq, mkPlayer],
   by norm_num [PLAYER_RADIUS],
   collision_pair_separation envC (mkPlayer "WA" 100 200) (mkPlayer "WB" 135 200) 35
     rfl rfl (by norm_num [envC, hypAxis, mkPlayer]) (by norm_num [distSq, mkPlayer])
     (by norm_num) (by norm_num [PLAYER_RADIUS])⟩

/-- C3 counterexample: with a third overlapping alive player in the
same pass, a pair's distance can DECREASE below its pre-resolution
value: A and B start 35 apart (overlapping, distance positive), yet
after the full pass over [A, B, C] they are only 18.05 apart.  All
offsets are horizontal, so the axis-exact hypot oracle coincides with
Math.hypot on every call of this run. -/
theorem collision_pass_distance_decreases :
    (mkPlayer "A" 100 100).alive = true ∧ (mkPlayer "B" 135 100).alive = true ∧
    (mkPlayer "C" (497 / 5) 100).alive = true ∧
    0 < distSq (mkPlayer "A" 100 100) (mkPlayer "B" 135 100) ∧
    distSq (mkPlayer "A" 100 100) (mkPlayer "B" 135 100) < (2 * PLAYER_RADIUS) ^ 2 ∧
    resolveCollisions envC
        [mkPlayer "A" 100 100, mkPlayer "B" 135 100, mkPlayer "C" (497 / 5) 100] =
      [{ mkPlayer "A" 100 100 with x := 2349 / 20, vx := 0 },
       { mkPlayer "B" 135 100 with x := 271 / 2, vx := 520 },
       { mkPlayer "C" (497 / 5) 100 with x := 1629 / 20, vx := -520 }] ∧
    distSq { mkPlayer "A" 100 100 with x := 2349 / 20, vx := 0 }
           { mkPlayer "B" 135 100 with x := 271 / 2, vx := 520 } <
      distSq (mkPlayer "A" 100 100) (mkPlayer "B" 135 100) := by
  refine ⟨rfl, rfl, rfl, by norm_num [distSq, mkPlayer],
          by norm_num [distSq, mkPlayer, PLAYER_RADIUS], ?_,
          by norm_num [distSq, mkPlayer]⟩
  norm_num [resolveCollisions, resolveGo, resolveWith, collide, mkPlayer, envC, hypAxis,
        PLAYER_RADIUS, COLLISION_PUSH, abs_of_nonneg, abs_of_nonpos]

/-- A list with a spec-side first maximum is nonempty. -/
theorem specFirstMax_eq_none (ps : List Player) (h : specFirstMax ps = none) : ps = [] := by
  cases ps with
  | nil => rfl
  | cons p ps =>
    rcases hm : specFirstMax ps with _ | q
    · simp [specFirstMax, hm] at h
    · simp only [specFirstMax, hm] at h
      split at h <;> simp at h

/-- The winner fold of checkRoundEnd computes exactly the spec-side
first maximum (when one exists and improves on the accumulator). -/
theorem bestPair_spec (ps : List Player) :
    ∀ (w : Option String) (b : ℚ),
      bestPair ps w b =
        match specFirstMax ps with
        | none => (w, b)
        | some m =>
          if b < m.dominationTime then (some m.id, m.dominationTime) else (w, b) := by
  induction ps with
  | nil => intro w b; rfl
  | cons p ps ih =>
    intro w b
    rcases hm : specFirstMax ps with _ | q
    · by_cases hb : b < p.dominationTime
      · simp only [bestPair, specFirstMax, hm, ih, if_pos hb]
      · simp only [bestPair, specFirstMax, hm, ih, if_neg hb]
    · by_cases hpq : p.dominationTime < q.dominationTime
      · by_cases hb : b < p.dominationTime
        · simp only [bestPair, specFirstMax, hm, ih, if_pos hb, if_pos hpq,
            if_pos (lt_trans hb hpq)]
        · simp only [bestPair, specFirstMax, hm, ih, if_neg hb, if_pos hpq]
      · by_cases hb : b < p.dominationTime
        · simp only [bestPair, specFirstMax, hm, ih, if_pos hb, if_neg hpq]
        · have hq : ¬ b < q.dominationTime :=
            not_lt.mpr (le_trans (not_lt.mp hpq) (not_lt.mp hb))
          simp only [bestPair, specFirstMax, hm, ih, if_neg hb, if_neg hpq, if_neg hq]

/-- The spec-side first maximum is a greatest element, and everything
strictly before it in the list is strictly smaller. -/
theorem specFirstMax_charac (ps : List Player) :
    ∀ m : Player, specFirstMax ps = some m →
      (∀ q ∈ ps, q.dominationTime ≤ m.dominationTime) ∧
      ∃ l1 l2, ps = l1 ++ m :: l2 ∧ ∀ q ∈ l1, q.dominationTime < m.dominationTime := by
  induction ps with
  | nil => intro m h; cases h
  | cons p ps ih =>
    intro m h
    rcases hm : specFirstMax ps with _ | q
    · have hnil := specFirstMax_eq_none ps hm
      subst hnil
      simp only [specFirstMax] at h
      obtain rfl : p = m := by injection h
      refine ⟨?_, [], [], rfl, ?_⟩
      · intro r hr
        rcases List.mem_cons.mp hr with rfl | hr2
        · exact le_refl _
        · cases hr2
      · intro r hr
        cases hr
    · simp only [specFirstMax, hm] at h
      by_cases hpq : p.dominationTime < q.dominationTime
      · rw [if_pos hpq] at h
        obtain rfl : q = m := by injection h
        obtain ⟨hbound, l1, l2, hsplit, hpre⟩ := ih q hm
        refine ⟨?_, p :: l1, l2, ?_, ?_⟩
        · intro r hr
          rcases List.mem_cons.mp hr with rfl | hr2
          · exact le_of_lt hpq
          · exact hbound r hr2
        · rw [hsplit]
          rfl
        · intro r hr
          rcases List.mem_cons.mp hr with rfl | hr2
          · exact hpq
          · exact hpre r hr2
      · rw [if_neg hpq] at h
        obtain rfl : p = m := by injection h
        obtain ⟨hbound, l1, l2, hsplit, hpre⟩ := ih q hm
        refine ⟨?_, [], ps, rfl, ?_⟩
        · intro r hr
          rcases List.mem_cons.mp hr with rfl | hr2
          · exact le_refl _
          · exact le_trans (hbound r hr2) (not_lt.mp hpq)
        · intro r hr
          cases hr

/-- C5: a room with at least two players, at least two alive, and
elapsed time at the round duration ends with reason timeout; the
winner is a player m of the room whose domination time is greatest,
with every player iterated before m strictly smaller (first-seen
tie-break): the players split as l1 ++ m :: l2 with all of l1 strictly
below m. -/
theorem checkRoundEnd_timeout_argmax (r : Room)
    (h0 : r.roundEnded = false) (h1 : 2 ≤ r.players.length)
    (h2 : 2 ≤ (r.players.filter (fun p => p.alive)).length)
    (h3 : ROUND_DURATION_MS ≤ r.elapsedMs)
    (h4 : ∀ p ∈ r.players, 0 ≤ p.dominationTime) :
    ∃ m l1 l2, r.players = l1 ++ m :: l2 ∧
      (∀ q ∈ l1, q.dominationTime < m.dominationTime) ∧
      (∀ q ∈ r.players, q.dominationTime ≤ m.dominationTime) ∧
      checkRoundEnd r =
        ({ r with roundEnded := true },
         some { winnerId := some m.id, reason := Reason.timeout }) := by
  rcases hsm : specFirstMax r.players with _ | m
  · rw [specFirstMax_eq_none r.players hsm] at h1
    simp at h1
  · obtain ⟨hbound, l1, l2, hsplit, hpre⟩ := specFirstMax_charac r.players m hsm
    have hmem : m ∈ r.players := by
      rw [hsplit]
      exact List.mem_append_right _ (List.mem_cons_self _ _)
    have hm0 : 0 ≤ m.dominationTime := h4 m hmem
    have hbp : bestPair r.players none (-1) = (some m.id, m.dominationTime) := by
      have h := bestPair_spec r.players none (-1)
      simp only [hsm] at h
      rw [h, if_pos (by linarith)]
    have hnl : ¬ (r.players.length < 2) := Nat.not_lt.mpr h1
    have halive : ¬ ((r.players.filter (fun p => p.alive)).length ≤ 1) := by omega
    refine ⟨m, l1, l2, hsplit, hpre, hbound, ?_⟩
    simp [checkRoundEnd, h0, hnl, halive, h3, hbp]

/-- Witness for checkRoundEnd_timeout_argmax: domination times
[5, 3.2, 5] for ids A, B, C at the timeout instant give winner A. -/
theorem checkRoundEnd_timeout_argmax_witness :
    (mkRoom [{ mkPlayer "A" 600 400 with dominationTime := 5 },
             { mkPlayer "B" 600 400 with dominationTime := 3.2 },
             { mkPlayer "C" 600 400 with dominationTime := 5 }] 180000).roundEnded = false ∧
    ROUND_DURATION_MS ≤ (mkRoom [{ mkPlayer "A" 600 400 with dominationTime := 5 },
             { mkPlayer "B" 600 400 with dominationTime := 3.2 },
             { mkPlayer "C" 600 400 with dominationTime := 5 }] 180000).elapsedMs ∧
    (∃ m l1 l2,
      (mkRoom [{ mkPlayer "A" 600 400 with dominationTime := 5 },
               { mkPlayer "B" 600 400 with dominationTime := 3.2 },
               { mkPlayer "C" 600 400 with dominationTime := 5 }] 180000).players =
          l1 ++ m :: l2 ∧
      (∀ q ∈ l1, q.dominationTime < m.dominationTime) ∧
      (∀ q ∈ (mkRoom [{ mkPlayer "A" 600 400 with dominationTime := 5 },
               { mkPlayer "B" 600 400 with dominationTime := 3.2 },
               { mkPlayer "C" 600 400 with dominationTime := 5 }] 180000).players,
          q.dominationTime ≤ m.dominationTime) ∧
      checkRoundEnd (mkRoom [{ mkPlayer "A" 600 400 with dominationTime := 5 },
               { mkPlayer "B" 600 400 with dominationTime := 3.2 },
               { mkPlayer "C" 600 400 with dominationTime := 5 }] 180000) =
        ({ (mkRoom [{ mkPlayer "A" 600 400 with dominationTime := 5 },
               { mkPlayer "B" 600 400 with dominationTime := 3.2 },
               { mkPlayer "C" 600 400 with dominationTime := 5 }] 180000) with
            roundEnded := true },
         some { winnerId := some m.id, reason := Reason.timeout })) ∧
    (checkRoundEnd (mkRoom [{ mkPlayer "A" 600 400 with dominationTime := 5 },
               { mkPlayer "B" 600 400 with dominationTime := 3.2 },
               { mkPlayer "C" 600 400 with dominationTime := 5 }] 180000)).2 =
      some { winnerId := some "A", reason := Reason.timeout } := by
  refine ⟨rfl, by norm_num [mkRoom, ROUND_DURATION_MS], ?_, ?_⟩
  · exact checkRoundEnd_timeout_argmax _ rfl (by norm_num [mkRoom])
      (by norm_num [mkRoom, mkPlayer]) (by norm_num [mkRoom, ROUND_DURATION_MS])
      (by
        intro p hp
        simp only [mkRoom, List.mem_cons, List.not_mem_nil, or_false] at hp
        rcases hp with rfl | rfl | rfl <;> norm_num [mkPlayer])
  · norm_num [checkRoundEnd, bestPair, mkRoom, mkPlayer, ROUND_DURATION_MS]

end CircleKing
